import Mathlib

/-!
Verification of the event classification and delivery pipeline of the
docker-discord-relay service (src/index.mjs), shallowly embedded in Lean.

The embedding translates each source function into a Lean definition:
external network calls (the webhook POST, the member fetch, the channel
history fetch) become explicit oracles passed as arguments, JavaScript
strings become Lean strings, and nullable values become `Option`.
-/

namespace DiscordRelay

/-! ## Delivery pipeline (src/index.mjs, `postWithRetry`, lines 134-149)

`axios.post` is modelled by an oracle `post : Nat → Bool` giving the
outcome of the attempt with a given index (`true` = the POST resolved,
i.e. a 2xx response; `false` = non-2xx, network error or timeout, all of
which reject and land in the `catch` block). -/

/-- Outcome of a whole delivery sequence: either some attempt succeeded,
or all attempts were exhausted (the source then logs
`POST permanently failed` and returns, dropping the payload). -/
inductive DeliveryResult where
  | delivered
  | permanentFailure
  deriving DecidableEq, Repr

/-- Trace of one `postWithRetry` run: the outcome of every POST attempt
actually made (in order), the backoff delays slept (in order), and the
final result. -/
structure RetryTrace where
  results : List Bool
  waits : List Nat
  outcome : DeliveryResult
  deriving DecidableEq, Repr

/-- Source line 142: `const wait = Math.min(2000 * (attempt + 1), 8000);`. -/
def backoff (attempt : Nat) : Nat :=
  min (2000 * (attempt + 1)) 8000

/-- The `while (attempt <= retries)` loop of `postWithRetry`, with
`remaining = retries + 1 - attempt` made explicit as structural fuel.
On success the loop returns immediately; on failure it sleeps
`backoff attempt` and increments `attempt`. -/
def runAttempts (post : Nat → Bool) (attempt remaining : Nat) : RetryTrace :=
  match remaining with
  | 0 => { results := [], waits := [], outcome := .permanentFailure }
  | r + 1 =>
    if post attempt then
      { results := [true], waits := [], outcome := .delivered }
    else
      let t := runAttempts post (attempt + 1) r
      { results := false :: t.results, waits := backoff attempt :: t.waits,
        outcome := t.outcome }

/-- Source `postWithRetry(url, data, headers, retries = MAX_RETRIES)`:
the loop starts at `attempt = 0` and runs while `attempt <= retries`,
so at most `retries + 1` attempts are made. -/
def postWithRetry (post : Nat → Bool) (retries : Nat) : RetryTrace :=
  runAttempts post 0 (retries + 1)

/-! ## String helpers

JavaScript string operations used by the handler, modelled on `List Char`.
`wsTokens` models `s.trim().split(/\s+/)` for the purpose of extracting
whitespace-separated tokens: it returns the maximal runs of
non-whitespace characters, so leading/trailing whitespace (removed by
`trim` in the source) contributes nothing. -/

/-- Characters matched by the JavaScript `\s` class (ASCII part) and
removed by `trim`. -/
def isJsWs (c : Char) : Bool :=
  c = ' ' || c = '\t' || c = '\n' || c = '\r' || c = '\x0b' || c = '\x0c'

/-- Accumulating scanner behind `wsTokens`: `cur` holds the reversed
characters of the token being read. -/
def wsTokensGo : List Char → List Char → List String
  | cur, [] => if cur.isEmpty then [] else [String.mk cur.reverse]
  | cur, c :: cs =>
    if isJsWs c then
      if cur.isEmpty then wsTokensGo [] cs
      else String.mk cur.reverse :: wsTokensGo [] cs
    else wsTokensGo (c :: cur) cs

/-- The whitespace-separated tokens of a string (`trim` + `split(/\s+/)`
of the source, with the `[""]` result on an all-whitespace string
represented as the empty token list and handled by `splitCmd`). -/
def wsTokens (s : String) : List String :=
  wsTokensGo [] s.data

/-- Source line 164, `const [cmd, ...args] = rest.trim().split(/\s+/)`:
JavaScript yields `[""]` on an all-whitespace remainder, so `cmd` is the
empty string and `args` is empty there. -/
def splitCmd (rest : String) : String × List String :=
  match wsTokens rest with
  | [] => ("", [])
  | c :: as => (c, as)

/-- Models `content.startsWith(p)`. -/
def strStartsWith (s p : String) : Bool :=
  p.data.isPrefixOf s.data

/-- Models `content.slice(n)` (all command prefixes of interest are ASCII, so
JavaScript UTF-16 length and character count agree). -/
def strDrop (s : String) (n : Nat) : String :=
  String.mk (s.data.drop n)

/-! ## Data model (src/index.mjs, lines 50-132, 155-229) -/

/-- The `m.author` user record, as read by the handler. Fields that the
source guards with `?? null` are `Option`s. -/
structure Author where
  id : String
  username : Option String
  globalName : Option String
  discriminator : Option String
  bot : Bool
  deriving DecidableEq, Repr

/-- A guild role, reduced to `{ id, name }` as in `getIdentity`. -/
structure GuildRole where
  id : String
  name : String
  deriving DecidableEq, Repr

/-- A guild member record as returned by
`m.guild.members.cache.get(...) || await m.guild.members.fetch(...)`. -/
structure Member where
  displayName : Option String
  roles : List GuildRole
  deriving DecidableEq, Repr

/-- One attachment, reduced to the fields the handler forwards. -/
structure Attachment where
  id : String
  name : String
  url : String
  contentType : Option String
  size : Nat
  deriving DecidableEq, Repr

/-- Immutable snapshot of one `MessageCreate` event, with the optional
chained fields (`m.guild?.id`, `m.channel?.name`, `m.reference?.messageId`,
`m.mentions?.repliedUser?.id`) modelled as explicit `Option`s and the
channel predicates (`isDMBased`, `isThread`) as booleans. `mentions` is
the list of user ids in the platform mention list (`msg.mentions.has`). -/
structure InboundEvent where
  id : String
  author : Author
  content : String
  channelId : String
  channelName : Option String
  guildId : Option String
  createdTimestamp : Int
  referenceMessageId : Option String
  repliedUserId : Option String
  mentions : List String
  isDMBased : Bool
  isThread : Bool
  attachments : List Attachment
  deriving DecidableEq, Repr

/-- Parsed environment configuration (lines 17-34). `chatContextLastN`
is a `Nat` because the source applies `Math.max(0, ...)`. -/
structure Config where
  allowedChannels : List String
  cmdPrefix : String
  chatTriggers : List String
  chatContextLastN : Nat
  fetchMemberProfile : Bool
  maxRetries : Nat
  deriving Repr

/-- The identity block produced by `getIdentity` (lines 50-75). The
enrichment fields `display_name` and `roles` are always present,
`none`/`[]` when enrichment is disabled, skipped or failed. -/
structure Identity where
  user_id : String
  username : Option String
  global_name : Option String
  discriminator : Option String
  is_bot : Bool
  display_name : Option String
  roles : List GuildRole
  deriving DecidableEq, Repr

/-- Source `getIdentity(m)` (lines 50-75). The member lookup
(`cache.get || fetch`, which can reject) is an oracle
`fetchMember : Except Unit Member`; the `try/catch` around it becomes the
`Except` match, so the Lean function is total: no error escapes. -/
def getIdentity (fetchProfile : Bool) (m : InboundEvent)
    (fetchMember : Except Unit Member) : Identity :=
  let base : Option String → List GuildRole → Identity := fun dn rs =>
    { user_id := m.author.id, username := m.author.username,
      global_name := m.author.globalName, discriminator := m.author.discriminator,
      is_bot := m.author.bot, display_name := dn, roles := rs }
  if !fetchProfile || m.guildId.isNone then base none []
  else
    match fetchMember with
    | .ok mem => base mem.displayName (mem.roles.map fun r => { id := r.id, name := r.name })
    | .error _ => base none []

/-- The two derived keys returned by `makeConversationKeys` (lines 77-85). -/
structure ConversationKeys where
  user_key : String
  convo_key : String
  deriving DecidableEq, Repr

/-- Source line 78, `const guildKey = m.guild?.id || 'dm'`: JavaScript `||`
also maps the (never occurring in practice) empty-string id to `"dm"`. -/
def guildSegment (guildId : Option String) : String :=
  match guildId with
  | none => "dm"
  | some g => if g = "" then "dm" else g

/-- Source `makeConversationKeys(m)` (lines 77-85). -/
def makeConversationKeys (m : InboundEvent) : ConversationKeys :=
  { user_key := guildSegment m.guildId ++ ":" ++ m.author.id,
    convo_key := guildSegment m.guildId ++ ":" ++ m.channelId ++ ":" ++ m.author.id }

/-- Source `isAllowedChannel(msg)` (lines 88-90). -/
def isAllowedChannel (cfg : Config) (m : InboundEvent) : Bool :=
  cfg.allowedChannels.isEmpty || cfg.allowedChannels.contains m.channelId

/-- JavaScript truthiness of a nullable string (used for
`!!m.reference?.messageId` and the `repliedUserId &&` guard). -/
def jsTruthyStr (o : Option String) : Bool :=
  match o with
  | none => false
  | some s => !(s == "")

/-- Source `isDM(msg)` (lines 92-94): note `&&` binds tighter than `||`. -/
def isDM (m : InboundEvent) : Bool :=
  m.isDMBased || (!m.isThread && m.guildId.isNone)

/-- Source `mentionsBot(msg)` (lines 96-98): false before the gateway handshake
sets `client.user` (`selfUser = none`). -/
def mentionsBot (selfUser : Option String) (m : InboundEvent) : Bool :=
  match selfUser with
  | none => false
  | some sid => m.mentions.contains sid

/-- Source `isReplyToBot(msg)` (lines 100-104). -/
def isReplyToBot (selfUser : Option String) (m : InboundEvent) : Bool :=
  match selfUser with
  | none => false
  | some sid =>
    m.referenceMessageId.isSome && jsTruthyStr m.repliedUserId &&
      m.repliedUserId == some sid

/-- Source `shouldTreatAsChat(msg)` (lines 106-112). -/
def shouldTreatAsChat (cfg : Config) (selfUser : Option String) (m : InboundEvent) : Bool :=
  if cfg.chatTriggers.contains "ALL" then true
  else if cfg.chatTriggers.contains "DM" && isDM m then true
  else if cfg.chatTriggers.contains "MENTION" && mentionsBot selfUser m then true
  else if cfg.chatTriggers.contains "REPLY" && isReplyToBot selfUser m then true
  else false

/-- Result of the gating logic at the top of the `MessageCreate` handler
(lines 155-192): drop the event, treat it as a command, or treat it as
conversational chat. -/
inductive Classification where
  | ignore
  | command (cmd : String) (args : List String)
  | chat
  deriving DecidableEq, Repr

/-- The classification steps of the `MessageCreate` handler in source
order: bot guard (line 157), allow-list guard (line 158), command-prefix
test with `slice`/`trim`/`split` (lines 160-164), chat-trigger test
(line 192). -/
def classify (cfg : Config) (selfUser : Option String) (m : InboundEvent) :
    Classification :=
  if m.author.bot then .ignore
  else if !isAllowedChannel cfg m then .ignore
  else if strStartsWith m.content cfg.cmdPrefix then
    let p := splitCmd (strDrop m.content cfg.cmdPrefix.length)
    .command p.1 p.2
  else if shouldTreatAsChat cfg selfUser m then .chat
  else .ignore

/-! ## Context assembler (src/index.mjs, `buildContext`, lines 114-132) -/

/-- The reduced author summary inside a context item
(`{ id, username, isBot }`). -/
structure CtxAuthor where
  id : String
  username : Option String
  isBot : Bool
  deriving DecidableEq, Repr

/-- A message as returned by `msg.channel.messages.fetch`, reduced to
the fields `buildContext` reads. -/
structure HistMsg where
  id : String
  author : Author
  content : String
  createdTimestamp : Int
  referenceMessageId : Option String
  deriving DecidableEq, Repr

/-- The reduced context shape built by the `.map` of lines 121-127. -/
structure CtxItem where
  id : String
  author : CtxAuthor
  content : String
  timestamp : Int
  isReply : Bool
  deriving DecidableEq, Repr

/-- The per-message mapping of lines 121-127
(`isReply: !!m.reference?.messageId`). -/
def toCtxItem (m : HistMsg) : CtxItem :=
  { id := m.id,
    author := { id := m.author.id, username := m.author.username,
                isBot := m.author.bot },
    content := m.content, timestamp := m.createdTimestamp,
    isReply := jsTruthyStr m.referenceMessageId }

/-- The comparator `(a, b) => a.createdTimestamp - b.createdTimestamp`
of line 120, as a boolean order for `mergeSort` (both the V8 `sort` and
`mergeSort` are stable). -/
def tsLe (a b : HistMsg) : Bool :=
  a.createdTimestamp ≤ b.createdTimestamp

/-- Source `buildContext(msg)` (lines 114-132). The platform fetch is an
oracle taking the limit the source passes (`Math.min(N, 20)`); a
rejection (`catch`) is `Except.error` and yields the empty context. -/
def buildContext (lastN : Nat)
    (fetch : Nat → Except Unit (List HistMsg)) : List CtxItem :=
  if lastN = 0 then []
  else
    match fetch (min lastN 20) with
    | .error _ => []
    | .ok msgs => (msgs.mergeSort tsLe).map toCtxItem

/-- Modelled from the spec: the platform's channel-history fetch (the
`messages.fetch({ limit })` collaborator, which is not part of this
repository) returns the `limit` most recent messages of the channel.
`history` is the channel's messages in chronological order; the result
is most-recent-first, as the platform delivers them. -/
def fetchRecent (history : List HistMsg) (limit : Nat) :
    Except Unit (List HistMsg) :=
  .ok ((history.drop (history.length - limit)).reverse)

/-- A history fetch that always fails (network error, missing
permission, ...). -/
def failingFetch : Nat → Except Unit (List HistMsg) :=
  fun _ => .error ()

/-! ## Payload builder and handler (src/index.mjs, lines 155-229) -/

/-- Either `<@id>` (`bang = false`) or `<@!id>` (`bang = true`): the two
shapes matched by the regular expression of line 195. -/
def mentionChars (sid : String) (bang : Bool) : List Char :=
  '<' :: '@' :: ((if bang then ['!'] else []) ++ (sid.data ++ ['>']))

/-- Case-insensitive prefix test, modelling the `i` flag of the regular
expression of line 195. -/
def ciIsPrefixOf (p s : List Char) : Bool :=
  (p.map Char.toLower).isPrefixOf (s.map Char.toLower)

/-- Does the content start with a self-mention, per the matcher of
line 195 (`^<@!?ID>` with the `i` flag)? -/
def hasLeadingSelfMention (sid : String) (content : String) : Bool :=
  ciIsPrefixOf (mentionChars sid true) content.data ||
    ciIsPrefixOf (mentionChars sid false) content.data

/-- Source `cleaned.replace(new RegExp(..., 'i'), '')` with pattern `^<@!?ID>\s*` (lines
195-196): `replace` with a non-global anchored pattern removes at most
the one leading match, so a mention later in the string is untouched.
The greedy `!?` is the `<@!` branch tried first. -/
def stripSelfMention (sid : String) (content : String) : String :=
  let cs := content.data
  if ciIsPrefixOf (mentionChars sid true) cs then
    String.mk ((cs.drop (mentionChars sid true).length).dropWhile isJsWs)
  else if ciIsPrefixOf (mentionChars sid false) cs then
    String.mk ((cs.drop (mentionChars sid false).length).dropWhile isJsWs)
  else content

/-- The computation of `cleaned` in the chat branch (lines 193-197):
the strip only runs when the platform mention list contains the relay
(`mentionsBot(m) && client.user`). -/
def cleanedContent (selfUser : Option String) (m : InboundEvent) : String :=
  match selfUser with
  | none => m.content
  | some sid =>
    if mentionsBot (some sid) m then stripSelfMention sid m.content
    else m.content

/-- The JSON payload POSTed to the webhook (lines 168-185 for the
command variant, 202-221 for the chat variant). Fields present in only
one variant are `Option`s that the other variant leaves `none`. -/
structure OutboundPayload where
  event_type : String
  command : Option String
  args : Option (List String)
  content : String
  cleaned_content : Option String
  channel_id : String
  channel_name : Option String
  guild_id : Option String
  user_key : String
  convo_key : String
  identity : Identity
  message_id : String
  in_thread : Bool
  thread_id : Option String
  message_reference : Option String
  mentioned_bot : Option Bool
  is_dm : Option Bool
  attachments : List Attachment
  timestamp : Int
  context : Option (List CtxItem)
  deriving DecidableEq, Repr

/-- The `MessageCreate` handler (lines 155-229) up to the delivery
call: it returns the payload handed to `postWithRetry`, or `none` when
the event is dropped (bot author, disallowed channel, or no chat
trigger). -/
def handleMessage (cfg : Config) (selfUser : Option String) (m : InboundEvent)
    (fetchMember : Except Unit Member)
    (fetchHistory : Nat → Except Unit (List HistMsg)) :
    Option OutboundPayload :=
  if m.author.bot then none
  else if !isAllowedChannel cfg m then none
  else if strStartsWith m.content cfg.cmdPrefix then
    let p := splitCmd (strDrop m.content cfg.cmdPrefix.length)
    let identity := getIdentity cfg.fetchMemberProfile m fetchMember
    let keys := makeConversationKeys m
    some { event_type := "command", command := some p.1, args := some p.2,
           content := m.content, cleaned_content := none,
           channel_id := m.channelId, channel_name := m.channelName,
           guild_id := m.guildId, user_key := keys.user_key,
           convo_key := keys.convo_key, identity := identity,
           message_id := m.id, in_thread := m.isThread,
           thread_id := if m.isThread then some m.channelId else none,
           message_reference := m.referenceMessageId, mentioned_bot := none,
           is_dm := none, attachments := m.attachments,
           timestamp := m.createdTimestamp, context := none }
  else if shouldTreatAsChat cfg selfUser m then
    let identity := getIdentity cfg.fetchMemberProfile m fetchMember
    let keys := makeConversationKeys m
    some { event_type := "chat", command := none, args := none,
           content := m.content,
           cleaned_content := some (cleanedContent selfUser m),
           channel_id := m.channelId, channel_name := m.channelName,
           guild_id := m.guildId, user_key := keys.user_key,
           convo_key := keys.convo_key, identity := identity,
           message_id := m.id, in_thread := m.isThread,
           thread_id := if m.isThread then some m.channelId else none,
           message_reference := m.referenceMessageId,
           mentioned_bot := some (mentionsBot selfUser m),
           is_dm := some (isDM m), attachments := m.attachments,
           timestamp := m.createdTimestamp,
           context := some (buildContext cfg.chatContextLastN fetchHistory) }
  else none

lemma runAttempts_allFail (post : Nat → Bool) :
    ∀ (k a : Nat), (∀ n, n < a + k → post n = false) →
      runAttempts post a k =
        { results := List.replicate k false,
          waits := (List.range' a k).map backoff,
          outcome := .permanentFailure }
  | 0, a, _ => by simp [runAttempts]
  | k + 1, a, h => by
    have hpa : post a = false := h a (by omega)
    have ih := runAttempts_allFail post k (a + 1) (fun n hn => h n (by omega))
    simp [runAttempts, hpa, ih, List.replicate_succ, List.range'_succ]

lemma isPrefixOf_append_self (p rest : List Char) :
    p.isPrefixOf (p ++ rest) = true := by
  induction p with
  | nil => simp [List.isPrefixOf]
  | cons c cs ih => simp [List.isPrefixOf, ih]

lemma ciIsPrefixOf_append_self (p rest : List Char) :
    ciIsPrefixOf p (p ++ rest) = true := by
  simp [ciIsPrefixOf, List.map_append, isPrefixOf_append_self]

/-- When the relay id contains no character that lowercases to `!`
(true of the numeric ids the platform issues), a content that starts
with the bare `<@id>` mention shape does not match the `<@!id>` shape. -/
lemma ciIsPrefixOf_bang_false (sid : String) (rest : List Char)
    (hsid : ∀ c ∈ sid.data, Char.toLower c ≠ '!') :
    ciIsPrefixOf (mentionChars sid true) (mentionChars sid false ++ rest) = false := by
  have e1 : Char.toLower '<' = '<' := rfl
  have e2 : Char.toLower '@' = '@' := rfl
  have e3 : Char.toLower '!' = '!' := rfl
  have e4 : ('!' == '>') = false := rfl
  cases hs : sid.data with
  | nil =>
    simp [ciIsPrefixOf, mentionChars, hs, List.isPrefixOf, e1, e2, e3, e4]
  | cons d ds =>
    have hd : ('!' == Char.toLower d) = false := by
      rw [beq_eq_false_iff_ne]
      intro h
      exact hsid d (by rw [hs]; exact List.mem_cons_self _ _) h.symm
    simp [ciIsPrefixOf, mentionChars, hs, List.isPrefixOf, e1, e2, e3, hd]

/-- A list that is strictly increasing under a key `f` is the unique
`f`-monotone arrangement of its elements. -/
lemma perm_pairwise_eq {α : Type} (f : α → Int) :
    ∀ {l₁ l₂ : List α}, l₁.Perm l₂ →
      l₁.Pairwise (fun a b => f a < f b) →
      l₂.Pairwise (fun a b => f a ≤ f b) → l₁ = l₂ := by
  intro l₁
  induction l₁ with
  | nil =>
    intro l₂ hp _ _
    exact (hp.symm.eq_nil).symm
  | cons a t ih =>
    intro l₂ hp h1 h2
    cases l₂ with
    | nil => exact (List.cons_ne_nil a t hp.eq_nil).elim
    | cons b t₂ =>
      obtain ⟨h1a, h1t⟩ := List.pairwise_cons.mp h1
      obtain ⟨h2a, h2t⟩ := List.pairwise_cons.mp h2
      have hab : a = b := by
        by_contra hne
        have haIn : a ∈ t₂ := by
          rcases List.mem_cons.mp (hp.subset (List.mem_cons_self a t)) with h | h
          · exact absurd h hne
          · exact h
        have hbIn : b ∈ t := by
          rcases List.mem_cons.mp (hp.symm.subset (List.mem_cons_self b t₂)) with h | h
          · exact absurd h.symm hne
          · exact h
        have hlt : f a < f b := h1a b hbIn
        have hle : f b ≤ f a := h2a a haIn
        omega
      subst hab
      rw [ih hp.cons_inv h1t h2t]

/-- Sorting the reverse of a strictly chronologically ordered list with
the timestamp comparator restores the original order. -/
lemma mergeSort_tsLe_reverse (l : List HistMsg)
    (h : l.Pairwise (fun a b => a.createdTimestamp < b.createdTimestamp)) :
    l.reverse.mergeSort tsLe = l := by
  have htrans : ∀ (a b c : HistMsg), tsLe a b → tsLe b c → tsLe a c := by
    intro a b c hab hbc
    simp only [tsLe, decide_eq_true_eq] at *
    omega
  have htotal : ∀ (a b : HistMsg), tsLe a b || tsLe b a := by
    intro a b
    simp only [tsLe]
    by_cases hab : a.createdTimestamp ≤ b.createdTimestamp
    · simp [hab]
    · simp [le_of_not_le hab]
  have hperm : l.Perm (l.reverse.mergeSort tsLe) :=
    (l.reverse_perm.symm).trans (List.mergeSort_perm l.reverse tsLe).symm
  have hsorted : (l.reverse.mergeSort tsLe).Pairwise
      (fun a b => a.createdTimestamp ≤ b.createdTimestamp) := by
    have hs := List.sorted_mergeSort htrans htotal l.reverse
    exact hs.imp (fun hab => by simpa [tsLe] using hab)
  exact (perm_pairwise_eq (fun x => x.createdTimestamp) hperm h hsorted).symm

lemma getIdentity_is_bot (fp : Bool) (m : InboundEvent)
    (fm : Except Unit Member) :
    (getIdentity fp m fm).is_bot = m.author.bot := by
  unfold getIdentity
  by_cases h : (!fp || m.guildId.isNone) = true
  · simp [h]
  · cases fm <;> simp [h]

end DiscordRelay

namespace DiscordRelay

/-- C1: a payload whose delivery fails on all `MAX_RETRIES + 1` attempts
causes exactly `MAX_RETRIES + 1` POST attempts (all failed), after which
the pipeline reports a permanent failure and makes no further attempt. -/
theorem postWithRetry_allFail (retries : Nat) (post : Nat → Bool)
    (h : ∀ n, n ≤ retries → post n = false) :
    (postWithRetry post retries).results = List.replicate (retries + 1) false ∧
    (postWithRetry post retries).results.length = retries + 1 ∧
    (postWithRetry post retries).outcome = DeliveryResult.permanentFailure := by
  have hall := runAttempts_allFail post (retries + 1) 0 (fun n hn => h n (by omega))
  rw [postWithRetry, hall]
  refine ⟨rfl, by simp, rfl⟩

/-- Witness for C1 at `MAX_RETRIES = 3` with every attempt failing. -/
theorem postWithRetry_allFail_witness :
    (postWithRetry (fun _ => false) 3).results = List.replicate 4 false ∧
    (postWithRetry (fun _ => false) 3).results.length = 4 ∧
    (postWithRetry (fun _ => false) 3).outcome = DeliveryResult.permanentFailure :=
  postWithRetry_allFail 3 (fun _ => false) (fun _ _ => rfl)

/-- C2: the backoff after the failed attempt with index `n` is
`min (2000 * (n + 1)) 8000` ms, and with `MAX_RETRIES = 3` a delivery that
fails on attempts 1-3 and succeeds on attempt 4 makes four POSTs of which
exactly one succeeds, sleeping `2000 + 4000 + 6000 = 12000` ms of backoff
before the final attempt. -/
theorem backoff_formula_and_success_on_fourth :
    (∀ n : Nat, backoff n = min (2000 * (n + 1)) 8000) ∧
    postWithRetry (fun n => n == 3) 3 =
      { results := [false, false, false, true], waits := [2000, 4000, 6000],
        outcome := .delivered } ∧
    (postWithRetry (fun n => n == 3) 3).results.count true = 1 ∧
    (postWithRetry (fun n => n == 3) 3).waits.sum = 12000 := by
  refine ⟨fun n => rfl, ?_, ?_, ?_⟩ <;> decide

/-- C10: when every attempt fails, `postWithRetry` sleeps after every
failed attempt including the last one: it emits `MAX_RETRIES + 1` backoff
delays, the delay after the attempt with index `n` being `backoff n`, and
the final delay (slept after the last failed attempt, before reporting
permanent failure) is `min (2000 * (MAX_RETRIES + 1)) 8000`. -/
theorem postWithRetry_allFail_waits (retries : Nat) (post : Nat → Bool)
    (h : ∀ n, n ≤ retries → post n = false) :
    (postWithRetry post retries).waits = (List.range (retries + 1)).map backoff ∧
    (postWithRetry post retries).waits.length = retries + 1 ∧
    (postWithRetry post retries).waits.getLast? =
      some (min (2000 * (retries + 1)) 8000) := by
  have hall := runAttempts_allFail post (retries + 1) 0 (fun n hn => h n (by omega))
  rw [postWithRetry, hall]
  refine ⟨by rw [List.range_eq_range'], by simp, ?_⟩
  have hsplit : List.range' 0 (retries + 1) = List.range' 0 retries ++ [retries] := by
    rw [← List.range_eq_range', ← List.range_eq_range', List.range_succ]
  simp only [hsplit, List.map_append, List.map_cons, List.map_nil, List.getLast?_concat]
  rfl

/-- Example configuration used by the concrete witnesses: empty
allow-list, the default command prefix and triggers. -/
def cfgEx : Config :=
  { allowedChannels := [], cmdPrefix := "!",
    chatTriggers := ["MENTION", "DM", "REPLY"], chatContextLastN := 4,
    fetchMemberProfile := true, maxRetries := 3 }

/-- Example author used by the concrete witnesses. -/
def authorEx : Author :=
  { id := "42", username := some "alice", globalName := some "Alice",
    discriminator := some "0", bot := false }

/-- Example guild event used by the concrete witnesses. -/
def eventEx : InboundEvent :=
  { id := "1001", author := authorEx, content := "!ping foo bar",
    channelId := "555", channelName := some "general", guildId := some "900",
    createdTimestamp := 1730000000000, referenceMessageId := none,
    repliedUserId := none, mentions := [], isDMBased := false,
    isThread := false, attachments := [] }

/-- Example direct-message event (no guild) used by the concrete
witnesses. -/
def dmEventEx : InboundEvent :=
  { eventEx with
    id := "1002", content := "hello there", guildId := none,
    isDMBased := true, channelName := none }

/-- C4: whenever guild-scoped enrichment does not run to completion —
the member fetch fails, enrichment is disabled, or the event has no
guild — `getIdentity` returns the identity whose base fields come from
the event author and whose enrichment fields are `display_name = none`,
`roles = []`. The function is total, so no error ever reaches the
caller, and the enrichment fields are present (as `none`/`[]`) in every
case. -/
theorem getIdentity_fallback (fetchProfile : Bool) (m : InboundEvent)
    (fm : Except Unit Member)
    (h : fm = Except.error () ∨ fetchProfile = false ∨ m.guildId = none) :
    getIdentity fetchProfile m fm =
      { user_id := m.author.id, username := m.author.username,
        global_name := m.author.globalName,
        discriminator := m.author.discriminator, is_bot := m.author.bot,
        display_name := none, roles := [] } := by
  rcases h with h | h | h
  · unfold getIdentity
    by_cases hd : (!fetchProfile || m.guildId.isNone) = true
    · simp [hd]
    · simp [hd, h]
  · simp [getIdentity, h]
  · simp [getIdentity, h]

/-- Witness for C4: a simulated member-fetch error on a guild event with
enrichment enabled. -/
theorem getIdentity_fallback_witness :
    getIdentity true eventEx (Except.error ()) =
      { user_id := "42", username := some "alice", global_name := some "Alice",
        discriminator := some "0", is_bot := false, display_name := none,
        roles := [] } :=
  getIdentity_fallback true eventEx (Except.error ()) (Or.inl rfl)

/-- C6: when the configured allow-list is non-empty and the event's
channel is not in it, classification yields Ignore irrespective of the
content (in particular even when it starts with the command prefix). -/
theorem classify_notAllowed_ignore (cfg : Config) (selfUser : Option String)
    (m : InboundEvent) (hne : cfg.allowedChannels ≠ [])
    (hnotin : m.channelId ∉ cfg.allowedChannels) :
    classify cfg selfUser m = Classification.ignore := by
  have hallow : isAllowedChannel cfg m = false := by
    simp [isAllowedChannel, List.isEmpty_iff, hne, hnotin]
  cases hb : m.author.bot <;> simp [classify, hb, hallow]

/-- Witness for C6: a command-prefixed event in a channel missing from a
non-empty allow-list. -/
theorem classify_notAllowed_ignore_witness :
    classify { cfgEx with allowedChannels := ["111", "222"] } (some "77") eventEx =
      Classification.ignore :=
  classify_notAllowed_ignore { cfgEx with allowedChannels := ["111", "222"] }
    (some "77") eventEx (by decide) (by decide)

/-- C7: a non-bot event in an allowed channel whose content starts with
the command prefix classifies as Command, with `cmd` the first
whitespace-separated token of the remainder after the prefix and `args`
the remaining tokens in order. -/
theorem classify_command (cfg : Config) (selfUser : Option String)
    (m : InboundEvent) (hbot : m.author.bot = false)
    (hallow : isAllowedChannel cfg m = true)
    (hpre : strStartsWith m.content cfg.cmdPrefix = true)
    (c : String) (as : List String)
    (htoks : wsTokens (strDrop m.content cfg.cmdPrefix.length) = c :: as) :
    classify cfg selfUser m = Classification.command c as := by
  simp [classify, hbot, hallow, hpre, splitCmd, htoks]

/-- Witness for C7: content `"!ping foo bar"` with prefix `"!"` yields
`Command "ping" ["foo", "bar"]`. -/
theorem classify_command_witness :
    classify cfgEx (some "77") eventEx = Classification.command "ping" ["foo", "bar"] :=
  classify_command cfgEx (some "77") eventEx rfl rfl rfl "ping" ["foo", "bar"]
    (by decide)

/-- C8: the conversation keys are pure deterministic functions of
`(guild_id, channel_id, author_id)`; `user_key` is the guild segment,
a colon, and the author id; `convo_key` is the guild segment, the
channel id and the author id joined by colons; and the guild segment is
the literal `"dm"` whenever the event has no guild. -/
theorem makeConversationKeys_spec (m m₂ : InboundEvent)
    (hg : m.guildId = m₂.guildId) (hc : m.channelId = m₂.channelId)
    (ha : m.author.id = m₂.author.id) :
    makeConversationKeys m = makeConversationKeys m₂ ∧
    (makeConversationKeys m).user_key = guildSegment m.guildId ++ ":" ++ m.author.id ∧
    (makeConversationKeys m).convo_key =
      guildSegment m.guildId ++ ":" ++ m.channelId ++ ":" ++ m.author.id ∧
    (m.guildId = none → guildSegment m.guildId = "dm") := by
  refine ⟨by simp [makeConversationKeys, hg, hc, ha], rfl, rfl, fun h => by simp [guildSegment, h]⟩

/-- Witness for C8: two direct-message events sharing
`(guild_id, channel_id, author_id)` but differing in content and message
id get identical keys, and the guild segment is `"dm"`. -/
theorem makeConversationKeys_spec_witness :
    makeConversationKeys dmEventEx =
      makeConversationKeys { dmEventEx with id := "1003", content := "bye" } ∧
    (makeConversationKeys dmEventEx).user_key =
      guildSegment dmEventEx.guildId ++ ":" ++ dmEventEx.author.id ∧
    (makeConversationKeys dmEventEx).convo_key =
      guildSegment dmEventEx.guildId ++ ":" ++ dmEventEx.channelId ++ ":" ++
        dmEventEx.author.id ∧
    (dmEventEx.guildId = none → guildSegment dmEventEx.guildId = "dm") :=
  makeConversationKeys_spec dmEventEx { dmEventEx with id := "1003", content := "bye" }
    rfl rfl rfl

/-- Witness for C10 at `MAX_RETRIES = 3` with every attempt failing. -/
theorem postWithRetry_allFail_waits_witness :
    (postWithRetry (fun _ => false) 3).waits = (List.range 4).map backoff ∧
    (postWithRetry (fun _ => false) 3).waits.length = 4 ∧
    (postWithRetry (fun _ => false) 3).waits.getLast? = some (min (2000 * 4) 8000) :=
  postWithRetry_allFail_waits 3 (fun _ => false) (fun _ _ => rfl)

end DiscordRelay

namespace DiscordRelay

/-- Example author of prior channel messages. -/
def histAuthorEx : Author :=
  { id := "7", username := some "bob", globalName := none,
    discriminator := some "0", bot := false }

/-- The `i`-th prior channel message of the witness history. -/
def histMsgEx (i : Nat) : HistMsg :=
  { id := toString i, author := histAuthorEx, content := "msg" ++ toString i,
    createdTimestamp := (i : Int), referenceMessageId := none }

/-- Ten prior channel messages in chronological order. -/
def histEx : List HistMsg :=
  [histMsgEx 0, histMsgEx 1, histMsgEx 2, histMsgEx 3, histMsgEx 4,
   histMsgEx 5, histMsgEx 6, histMsgEx 7, histMsgEx 8, histMsgEx 9]

/-- C3: for a configured bound `n > 0` over a channel whose history is
strictly chronologically ordered, the context window is exactly the
`min n 20` most recent messages, in ascending timestamp order, mapped
to the reduced shape; and any fetch failure yields the empty context. -/
theorem buildContext_spec (n : Nat) (history : List HistMsg) (hn : 0 < n)
    (hsort : history.Pairwise
      (fun a b => a.createdTimestamp < b.createdTimestamp)) :
    buildContext n (fetchRecent history) =
      (history.drop (history.length - min n 20)).map toCtxItem ∧
    buildContext n failingFetch = [] := by
  have hn0 : ¬ n = 0 := by omega
  constructor
  · have hstep : buildContext n (fetchRecent history) =
        (((history.drop (history.length - min n 20)).reverse).mergeSort tsLe).map
          toCtxItem := by
      unfold buildContext fetchRecent
      rw [if_neg hn0]
    rw [hstep, mergeSort_tsLe_reverse _ (hsort.sublist (List.drop_sublist _ _))]
  · unfold buildContext failingFetch
    rw [if_neg hn0]

/-- Witness for C3: bound `N = 4` over ten prior messages yields the
four most recent in ascending order; a failing fetch yields `[]`. -/
theorem buildContext_spec_witness :
    buildContext 4 (fetchRecent histEx) =
      (histEx.drop (histEx.length - min 4 20)).map toCtxItem ∧
    buildContext 4 failingFetch = [] :=
  buildContext_spec 4 histEx (by decide) (by decide)

/-- C5: when the platform reports a self-mention and the content starts
with one of the two self-mention shapes, `cleaned_content` is the
content with exactly that one leading token (and the whitespace the
matcher consumes after it) removed; when the content does not start
with a self-mention, `cleaned_content` is the content unchanged, even
if a self-mention occurs later in the string. The hypothesis on `sid`
holds for every platform id (numeric strings). -/
theorem cleanedContent_spec (sid : String) (m : InboundEvent)
    (hsid : ∀ c ∈ sid.data, Char.toLower c ≠ '!') :
    (∀ rest : List Char, sid ∈ m.mentions →
      (m.content.data = mentionChars sid true ++ rest ∨
        m.content.data = mentionChars sid false ++ rest) →
      (cleanedContent (some sid) m).data = rest.dropWhile isJsWs) ∧
    (hasLeadingSelfMention sid m.content = false →
      cleanedContent (some sid) m = m.content) := by
  constructor
  · intro rest hmem hdec
    have hmb : mentionsBot (some sid) m = true := by
      simp only [mentionsBot]
      exact List.elem_iff.mpr hmem
    rcases hdec with hdec | hdec
    · have h2 : ciIsPrefixOf (mentionChars sid true) m.content.data = true := by
        rw [hdec]; exact ciIsPrefixOf_append_self _ _
      calc (cleanedContent (some sid) m).data
          = (m.content.data.drop (mentionChars sid true).length).dropWhile
              isJsWs := by
            simp [cleanedContent, hmb, stripSelfMention, h2]
        _ = rest.dropWhile isJsWs := by rw [hdec, List.drop_left]
    · have hneg : ciIsPrefixOf (mentionChars sid true) m.content.data = false := by
        rw [hdec]; exact ciIsPrefixOf_bang_false sid rest hsid
      have hpos : ciIsPrefixOf (mentionChars sid false) m.content.data = true := by
        rw [hdec]; exact ciIsPrefixOf_append_self _ _
      calc (cleanedContent (some sid) m).data
          = (m.content.data.drop (mentionChars sid false).length).dropWhile
              isJsWs := by
            simp [cleanedContent, hmb, stripSelfMention, hneg, hpos]
        _ = rest.dropWhile isJsWs := by rw [hdec, List.drop_left]
  · intro hno
    rw [hasLeadingSelfMention, Bool.or_eq_false_iff] at hno
    by_cases hmb : mentionsBot (some sid) m = true
    · simp [cleanedContent, hmb, stripSelfMention, hno.1, hno.2]
    · have hmb2 : mentionsBot (some sid) m = false := by simpa using hmb
      simp [cleanedContent, hmb2]

/-- Example chat event whose content starts with a self-mention of the
relay (id `"99"`) and repeats it mid-message. -/
def mentionEventEx : InboundEvent :=
  { eventEx with
    id := "1004", content := "<@99> hi <@99>", mentions := ["99"] }

/-- Example chat event with a self-mention only mid-message. -/
def midMentionEventEx : InboundEvent :=
  { eventEx with id := "1005", content := "hi <@99>", mentions := ["99"] }

/-- Witness for C5: the leading `<@99>` token (with its trailing space)
is stripped once; a mid-message mention alone leaves the content
unchanged. -/
theorem cleanedContent_spec_witness :
    (cleanedContent (some "99") mentionEventEx).data =
      (" hi <@99>".data).dropWhile isJsWs ∧
    cleanedContent (some "99") midMentionEventEx = midMentionEventEx.content := by
  constructor
  · exact (cleanedContent_spec "99" mentionEventEx (by decide)).1
      (" hi <@99>".data) (by decide) (Or.inr (by decide))
  · exact (cleanedContent_spec "99" midMentionEventEx (by decide)).2 (by decide)

/-- C9: every payload the handler passes to the delivery pipeline
(command or chat variant) carries `identity.is_bot = false`, because
bot-authored events are dropped at line 157 before any identity is
resolved or payload is built. Stated with `Option.getD` so that a
dropped event vacuously satisfies the invariant. -/
theorem handleMessage_identity_not_bot (cfg : Config)
    (selfUser : Option String) (m : InboundEvent) (fm : Except Unit Member)
    (fh : Nat → Except Unit (List HistMsg)) :
    ((handleMessage cfg selfUser m fm fh).map
      (fun p => p.identity.is_bot)).getD false = false := by
  unfold handleMessage
  by_cases hb : m.author.bot = true
  · simp [hb]
  · have hb2 : m.author.bot = false := by simpa using hb
    by_cases hc : (!isAllowedChannel cfg m) = true
    · simp [hb2, hc]
    · by_cases hp : strStartsWith m.content cfg.cmdPrefix = true
      · simp [hb2, hc, hp, getIdentity_is_bot]
      · by_cases hch : shouldTreatAsChat cfg selfUser m = true
        · simp [hb2, hc, hp, hch, getIdentity_is_bot]
        · simp [hb2, hc, hp, hch]

end DiscordRelay
